import Mathlib

/-
Verification of the horoscope crawler/sender scripts.

The extraction core lives in `scripts/오하아사_크롤링.py` (`parse_zodiac` and its
helpers `_text_after_label`, `_count_star`), the presentation/translation helpers
in `scripts/send_horoscope_kakao.py` (`translate_text`, `stars`).

The HTML handed to `parse_zodiac` is modelled as a tree of nodes, mirroring the
BeautifulSoup document tree produced by `BeautifulSoup(html, "html.parser")`:
a node is either a text node (`NavigableString`) or an element (`Tag`) carrying
its tag name, the list of its `class` attribute values, its optional `id`
attribute and its child nodes in document order.  Only the attributes the
script reads (`class`, `id`) are modelled.
-/

inductive Node where
  | text : String → Node
  | elem : String → List String → Option String → List Node → Node

/-- Document contents of the parsed page (the soup's top-level children). -/
abbrev Html := List Node

/-- Tag name of an element node (text nodes have none). -/
def Node.tag : Node → Option String
  | .text _ => none
  | .elem t _ _ _ => some t

/-- Child list of a node (`Tag.contents`); text nodes have no children. -/
def Node.children : Node → List Node
  | .text _ => []
  | .elem _ _ _ cs => cs

/-- The `id` attribute, as read by `box.get("id")` (crawler line 95). -/
def Node.idAttr : Node → Option String
  | .text _ => none
  | .elem _ _ i _ => i

/-- BeautifulSoup tag/class matching: `find`/`find_all(name, class_=c)` matches an
element whose tag name equals `name` and, when a class is given, whose class
list contains it. -/
def nodeMatches (n : Node) (tag : String) (cls : Option String) : Bool :=
  match n with
  | .text _ => false
  | .elem t cs _ _ => (t = tag) && (match cls with | none => true | some c => cs.contains c)

mutual
/-- `n.find_all(tag, class_=cls)`: all matching descendants of `n` in document
(pre-)order.  The node itself is not a candidate, matching BeautifulSoup. -/
def find_all (tag : String) (cls : Option String) : Node → List Node
  | .text _ => []
  | .elem _ _ _ cs => find_all_list tag cls cs

/-- `find_all` over a forest of sibling trees: each tree contributes itself (if
matching) followed by its matching descendants, in document order. -/
def find_all_list (tag : String) (cls : Option String) : List Node → List Node
  | [] => []
  | n :: rest =>
    (if nodeMatches n tag cls then [n] else []) ++ find_all tag cls n ++ find_all_list tag cls rest
end

/-- `n.find(tag, class_=cls)`: first matching descendant, if any. -/
def find (n : Node) (tag : String) (cls : Option String) : Option Node :=
  (find_all tag cls n).head?

/-- `soup.find(tag, class_=cls)` on the whole document. -/
def soup_find (tag : String) (cls : Option String) (html : Html) : Option Node :=
  (find_all_list tag cls html).head?

/-- Python `str.strip()` with no argument: remove leading and trailing
whitespace (modelled with `Char.isWhitespace`, which covers the whitespace the
fixtures and the crawled page use). -/
def py_strip (s : String) : String :=
  String.mk (((s.toList.dropWhile Char.isWhitespace).reverse.dropWhile Char.isWhitespace).reverse)

/-- Python `str.replace(ch, "")` for a single-character pattern (the only shape
the crawler uses: `"："` and `":"`): remove every occurrence of the character. -/
def py_remove_char (ch : Char) (s : String) : String :=
  String.mk (s.toList.filter (fun c => c ≠ ch))

mutual
/-- The stripped descendant strings of a node: each text node stripped, empty
results dropped (BeautifulSoup's `stripped_strings`). -/
def stripped_strings : Node → List String
  | .text s => if py_strip s = "" then [] else [py_strip s]
  | .elem _ _ _ cs => stripped_strings_list cs

def stripped_strings_list : List Node → List String
  | [] => []
  | n :: rest => stripped_strings n ++ stripped_strings_list rest
end

/-- `n.get_text(strip=True)`: concatenation of the stripped descendant strings
(default empty separator). -/
def get_text_strip (n : Node) : String :=
  String.join (stripped_strings n)

mutual
/-- BeautifulSoup's `Tag.string`: a text node is its own string; an element with
exactly one child defers to that child's string; any other element has none. -/
def tag_string : Node → Option String
  | .text s => some s
  | .elem _ _ _ cs => tag_string_of_contents cs

def tag_string_of_contents : List Node → Option String
  | [c] => tag_string c
  | _ => none
end

/-- Crawler line 36, `str(getattr(sib, "string", sib))`: for a text node
(`NavigableString`) this is its text; for an element (`Tag`) the attribute
`string` exists, so the result is `str(Tag.string)` — the nested string when
the element wraps exactly one, and the Python literal `"None"` otherwise
(`str(None) = "None"`, e.g. for an empty `<br/>` element). -/
def node_str (sib : Node) : String :=
  match sib with
  | .text s => s
  | .elem _ _ _ cs => (tag_string_of_contents cs).getD "None"

mutual
/-- Locate the first descendant `<span class=label_cls>` in a forest (document
order) and return the list of its following siblings (`span.next_siblings`). -/
def label_siblings (label_cls : String) : List Node → Option (List Node)
  | [] => none
  | n :: rest =>
    if nodeMatches n "span" (some label_cls) then some rest
    else
      match label_siblings_in label_cls n with
      | some sibs => some sibs
      | none => label_siblings label_cls rest

def label_siblings_in (label_cls : String) : Node → Option (List Node)
  | .text _ => none
  | .elem _ _ _ cs => label_siblings label_cls cs
end

/-- The loop of `_text_after_label` (crawler lines 35-39): first sibling whose
`node_str`, stripped, is non-empty and none of `":"`, `"："`, `"<br/>"`; the
returned value has all colon characters removed and is stripped again. -/
def first_meaningful_sibling : List Node → String
  | [] => ""
  | sib :: rest =>
    let s := py_strip (node_str sib)
    if s ≠ "" ∧ s ≠ ":" ∧ s ≠ "：" ∧ s ≠ "<br/>" then
      py_strip (py_remove_char ':' (py_remove_char '：' s))
    else first_meaningful_sibling rest

/-- Crawler `_text_after_label(parent, label_cls)` (lines 26-39). -/
def _text_after_label (parent : Node) (label_cls : String) : String :=
  match label_siblings_in label_cls parent with
  | none => ""
  | some sibs => first_meaningful_sibling sibs

/-- Crawler `_count_star(score_box, li_cls)` (lines 41-48). -/
def _count_star (score_box : Node) (li_cls : String) : Nat :=
  match find score_box "li" (some li_cls) with
  | none => 0
  | some target =>
    match find target "p" (some "lucky-box") with
    | none => 0
    | some lucky => (find_all "img" none lucky).length

/-- Crawler line 10. -/
def BASE_URL : String := "https://www.tv-asahi.co.jp/yajiplus/uranai/"

/-- Crawler lines 70-75: Korean sign name → Japanese sign name. -/
def zodiak_kr_jp : List (String × String) :=
  [("양자리", "おひつじ座"), ("황소자리", "おうし座"), ("쌍둥이자리", "ふたご座"),
   ("게자리", "かに座"), ("사자자리", "しし座"), ("처녀자리", "おとめ座"),
   ("천칭자리", "てんびん座"), ("전갈자리", "さそり座"), ("궁수자리", "いて座"),
   ("염소자리", "やぎ座"), ("물병자리", "みずがめ座"), ("물고기자리", "うお座")]

/-- Crawler line 76: `jp_to_kr = {v: k for k, v in zodiak_kr_jp.items()}`. -/
def jp_to_kr : List (String × String) :=
  zodiak_kr_jp.map (fun p => (p.2, p.1))

/-- Crawler lines 77-82: romanized id → Korean sign name. -/
def zodiak_eng : List (String × String) :=
  [("ohitsuji", "양자리"), ("ousi", "황소자리"), ("futago", "쌍둥이자리"),
   ("kani", "게자리"), ("sisi", "사자자리"), ("otome", "처녀자리"),
   ("tenbin", "천칭자리"), ("sasori", "전갈자리"), ("ite", "궁수자리"),
   ("yagi", "염소자리"), ("mizugame", "물병자리"), ("uo", "물고기자리")]

/-- Python `d.get(k)` on the dictionaries above (a `None` key is never present). -/
def dict_get (d : List (String × String)) : Option String → Option String
  | none => none
  | some k => (d.find? (fun p => p.1 == k)).map (fun p => p.2)

/-- One row of `ranking_rows` (crawler line 89). -/
structure RankingRow where
  «순위» : Nat
  «별자리_일본어» : Option String
  «별자리_한국어» : Option String
deriving DecidableEq

/-- One row of `detail_rows` (crawler lines 112-122). -/
structure DetailRow where
  «별자리» : Option String
  «운세» : String
  «행운의 색» : String
  «행운의 물건» : String
  «금전» : Nat
  «애정» : Nat
  «업무» : Nat
  «건강» : Nat
  «링크» : String
deriving DecidableEq

/-- One row of the merged output frame (crawler lines 126-138), in the final
column order `순위, 별자리, 링크, 운세, 행운의 색, 행운의 물건, 금전, 애정, 업무, 건강`.
Detail columns are `Option`-valued: `none` models the `NaN` a pandas left join
puts into an unmatched row's right-hand columns. -/
structure MergedRow where
  «순위» : Nat
  «별자리» : Option String
  «링크» : Option String
  «운세» : Option String
  «행운의 색» : Option String
  «행운의 물건» : Option String
  «금전» : Option Nat
  «애정» : Option Nat
  «업무» : Option Nat
  «건강» : Option Nat
deriving DecidableEq

/-- The ranking loop (crawler lines 86-89), `enumerate(..., start=i)` over the
(already truncated) list items. -/
def ranking_rows_from (i : Nat) : List Node → List RankingRow
  | [] => []
  | li :: rest =>
    let span := find li "span" none
    let jp_name := span.map get_text_strip
    { «순위» := i, «별자리_일본어» := jp_name, «별자리_한국어» := dict_get jp_to_kr jp_name }
      :: ranking_rows_from (i + 1) rest

/-- Crawler ranking pass: `rank_box.find_all("li")[:12]`, ranks assigned from 1. -/
def ranking_rows (rank_box : Node) : List RankingRow :=
  ranking_rows_from 1 ((find_all "li" none rank_box).take 12)

/-- Crawler detail pass body (lines 94-122) for a single `seiza-box` block. -/
def detail_row (box : Node) : DetailRow :=
  let zid := box.idAttr
  let kr_name := dict_get zodiak_eng zid
  let read_area := find box "div" (some "read-area")
  let read : String :=
    match read_area with
    | none => ""
    | some ra =>
      match find ra "p" (some "read") with
      | none => ""
      | some p => get_text_strip p
  let lucky_color : String :=
    match read_area with
    | some ra => _text_after_label ra "lucky-color-txt"
    | none => ""
  let key : String :=
    match read_area with
    | some ra => _text_after_label ra "key-txt"
    | none => ""
  let score := find box "div" (some "number-one-box")
  -- line 110: `link = f"{BASE_URL}#{zid}" if zid else ""`; Python truthiness
  -- makes both a missing and an empty id produce "".
  let link : String :=
    match zid with
    | some z => if z ≠ "" then BASE_URL ++ "#" ++ z else ""
    | none => ""
  { «별자리» := kr_name,
    «운세» := read,
    «행운의 색» := lucky_color,
    «행운의 물건» := key,
    «금전» := match score with | some sc => _count_star sc "lucky-money" | none => 0,
    «애정» := match score with | some sc => _count_star sc "lucky-love" | none => 0,
    «업무» := match score with | some sc => _count_star sc "lucky-work" | none => 0,
    «건강» := match score with | some sc => _count_star sc "lucky-health" | none => 0,
    «링크» := link }

/-- Crawler detail pass: `detail.find_all("div", class_="seiza-box")[:12]`. -/
def detail_rows (detail : Node) : List DetailRow :=
  ((find_all "div" (some "seiza-box") detail).take 12).map detail_row

/-- Output row for a ranking row with no matching detail row: the pandas left
join fills the right-hand columns with `NaN` (modelled `none`); line 133 then
sets the `별자리` column from the ranking side. -/
def unmatched_row (r : RankingRow) : MergedRow :=
  { «순위» := r.«순위», «별자리» := r.«별자리_한국어», «링크» := none, «운세» := none,
    «행운의 색» := none, «행운의 물건» := none, «금전» := none, «애정» := none,
    «업무» := none, «건강» := none }

/-- Output row for a ranking row joined to a matching detail row. -/
def matched_row (r : RankingRow) (d : DetailRow) : MergedRow :=
  { «순위» := r.«순위», «별자리» := r.«별자리_한국어», «링크» := some d.«링크»,
    «운세» := some d.«운세», «행운의 색» := some d.«행운의 색»,
    «행운의 물건» := some d.«행운의 물건», «금전» := some d.«금전»,
    «애정» := some d.«애정», «업무» := some d.«업무», «건강» := some d.«건강» }

/-- Contribution of one ranking (left) row to the pandas left merge: one output
row per detail row with an equal key, or a single `NaN`-filled row when no key
matches.  pandas matches `NaN` keys with `NaN` keys, so `none = none` counts as
a match. -/
def merge_block (drows : List DetailRow) (r : RankingRow) : List MergedRow :=
  match drows.filter (fun d => d.«별자리» == r.«별자리_한국어») with
  | [] => [unmatched_row r]
  | ds => ds.map (matched_row r)

/-- The pandas left merge of crawler lines 126-132: every ranking row appears in
ranking order, joined to its matching detail rows in detail order. -/
def merge_rows (rrows : List RankingRow) (drows : List DetailRow) : List MergedRow :=
  (rrows.map (merge_block drows)).flatten

/-- Crawler `parse_zodiac` (lines 62-139).  The first error is the explicit
`ValueError` of line 68.  The two `KeyError` branches model pandas raising when
a frame built from an empty row list has no columns: line 127's column
selection on an empty `ranking_df`, and line 126's `right_on="별자리"` lookup on
an empty `detail_df` (in that evaluation order). -/
def parse_zodiac (html : Html) : Except String (List MergedRow) :=
  match soup_find "ul" (some "rank-box") html, soup_find "div" (some "seiza-area") html with
  | some rank_box, some detail =>
    let rrows := ranking_rows rank_box
    let drows := detail_rows detail
    if rrows.isEmpty then
      .error "KeyError: None of [순위, 별자리_한국어] are in the columns"
    else if drows.isEmpty then
      .error "KeyError: 별자리"
    else
      .ok (merge_rows rrows drows)
  | _, _ => .error "페이지 구조가 예상과 다릅니다. rank-box 또는 seiza-area를 찾을 수 없습니다."

/-- Whether `parse_zodiac` returns normally. -/
def parse_succeeds (html : Html) : Bool :=
  match parse_zodiac html with
  | .ok _ => true
  | .error _ => false

/-- Sender `translate_text` (send_horoscope_kakao lines 28-37).  The external
`MyMemoryTranslator(...).translate` call is an opaque collaborator `tr` that
either returns a translation or raises.  An empty (falsy) input short-circuits
before the call; a successful translation is stripped; a raised error is caught
and the original text returned. -/
def translate_text (tr : String → Except String String) (text : String) : String :=
  if text = "" then text
  else
    match tr text with
    | .ok translated => py_strip translated
    | .error _ => text

/-- Python string repetition `s * n` (for non-negative `n`). -/
def str_repeat (s : String) : Nat → String
  | 0 => ""
  | k + 1 => s ++ str_repeat s k

/-- Sender `stars` (send_horoscope_kakao lines 76-82).  The `int(n)` conversion
of a non-numeric value raises and is replaced by 0, modelled by the `none`
input; then `"★" * n if n > 0 else "-"`. -/
def stars (x : Option Int) : String :=
  let n : Int := x.getD 0
  if n > 0 then str_repeat "★" n.toNat else "-"

/-- Fixture building block: a ranking list item `<li><span>name</span></li>`. -/
def rank_li (name : String) : Node :=
  Node.elem "li" [] none [Node.elem "span" [] none [Node.text name]]

/-- The twelve Japanese sign labels, `"おうし座"` first. -/
def c1_jp_names : List String :=
  ["おうし座", "おひつじ座", "ふたご座", "かに座", "しし座", "おとめ座",
   "てんびん座", "さそり座", "いて座", "やぎ座", "みずがめ座", "うお座"]

/-- Ranking container of the end-to-end fixture. -/
def c1_rank_box : Node :=
  Node.elem "ul" ["rank-box"] none (c1_jp_names.map rank_li)

/-- Fixture building block: a scoring list item whose lucky display box holds
`k` icon images. -/
def score_li (cls : String) (k : Nat) : Node :=
  Node.elem "li" [cls] none
    [Node.elem "p" ["lucky-box"] none (List.replicate k (Node.elem "img" [] none []))]

/-- Detail sub-block `id="ousi"`: narrative "test message", two icon images
under the money category, zero under love, work and health. -/
def c1_detail_box : Node :=
  Node.elem "div" ["seiza-box"] (some "ousi")
    [Node.elem "div" ["read-area"] none [Node.elem "p" ["read"] none [Node.text "test message"]],
     Node.elem "div" ["number-one-box"] none
       [score_li "lucky-money" 2, score_li "lucky-love" 0,
        score_li "lucky-work" 0, score_li "lucky-health" 0]]

/-- Detail container of the end-to-end fixture. -/
def c1_seiza_area : Node :=
  Node.elem "div" ["seiza-area"] none [c1_detail_box]

/-- End-to-end fixture of the spec's testable-properties section. -/
def c1_html : Html :=
  [Node.elem "body" [] none [c1_rank_box, c1_seiza_area]]

/-- Parent with a label span, then a `<br/>` element, then the value text node. -/
def c2_parent : Node :=
  Node.elem "div" ["txt"] none
    [Node.elem "span" ["lucky-color-txt"] none [Node.text "ラッキーカラー"],
     Node.elem "br" [] none [],
     Node.text " 赤 "]

/-- Ranking container listing the twelve Japanese labels in dictionary order. -/
def c3_rank_box : Node :=
  Node.elem "ul" ["rank-box"] none ((zodiak_kr_jp.map Prod.snd).map rank_li)

/-- Detail container with one (otherwise empty) sub-block per romanized id. -/
def c3_seiza_area : Node :=
  Node.elem "div" ["seiza-area"] none
    ((zodiak_eng.map Prod.fst).map (fun z => Node.elem "div" ["seiza-box"] (some z) []))

/-- Fully matching 12-versus-12 fixture. -/
def c3_html : Html := [c3_rank_box, c3_seiza_area]

/-- A ranking container holding no list items at all. -/
def c4_rank_box : Node := Node.elem "ul" ["rank-box"] none []

/-- Both mandatory containers present, but the ranking container is empty. -/
def c4_html : Html := [c4_rank_box, c1_seiza_area]

/-- Two ranking items with the same label. -/
def c5_rank_box : Node :=
  Node.elem "ul" ["rank-box"] none [rank_li "おうし座", rank_li "おうし座"]

/-- Seven detail blocks with the same id. -/
def c5_seiza_area : Node :=
  Node.elem "div" ["seiza-area"] none
    (List.replicate 7 (Node.elem "div" ["seiza-box"] (some "ousi") []))

/-- Fixture where every ranking row matches all seven detail rows. -/
def c5_html : Html := [c5_rank_box, c5_seiza_area]

/-- One ranking item whose label `"ABC座"` is not in the sign dictionary. -/
def c6_rank_box : Node := Node.elem "ul" ["rank-box"] none [rank_li "ABC座"]

/-- One detail block whose id does resolve. -/
def c6_seiza_area : Node :=
  Node.elem "div" ["seiza-area"] none [Node.elem "div" ["seiza-box"] (some "ousi") []]

/-- Fixture with an unresolved ranking label and a resolved detail block. -/
def c6_html : Html := [c6_rank_box, c6_seiza_area]

/-- The single ranking row the extractor builds from `c6_rank_box`. -/
def c6_rank_row : RankingRow :=
  { «순위» := 1, «별자리_일본어» := some "ABC座", «별자리_한국어» := none }

/-- The single output row the extractor produces on `c6_html`. -/
def c6_row : MergedRow :=
  { «순위» := 1, «별자리» := none, «링크» := none, «운세» := none,
    «행운의 색» := none, «행운의 물건» := none, «금전» := none, «애정» := none,
    «업무» := none, «건강» := none }

/-- Detail sub-block whose id attribute is present but empty. -/
def c8_box : Node := Node.elem "div" ["seiza-box"] (some "") []

/-- The record list `parse_zodiac` returns on a given page (empty on error). -/
def rows_of (html : Html) : List MergedRow :=
  match parse_zodiac html with
  | .ok rows => rows
  | .error _ => []

theorem ranking_rows_from_length (i : Nat) (l : List Node) :
    (ranking_rows_from i l).length = l.length := by
  induction l generalizing i with
  | nil => rfl
  | cons li rest ih => simp [ranking_rows_from, ih]

theorem ranking_rows_from_ranks (i : Nat) (l : List Node) :
    (ranking_rows_from i l).map (fun r => r.«순위») = List.range' i l.length := by
  induction l generalizing i with
  | nil => rfl
  | cons li rest ih => simp [ranking_rows_from, ih, List.range'_succ]

theorem ranking_rows_length_le (rank_box : Node) : (ranking_rows rank_box).length ≤ 12 := by
  unfold ranking_rows
  rw [ranking_rows_from_length, List.length_take]
  exact Nat.min_le_left _ _

theorem detail_rows_length_le (detail : Node) : (detail_rows detail).length ≤ 12 := by
  unfold detail_rows
  rw [List.length_map, List.length_take]
  exact Nat.min_le_left _ _

theorem parse_zodiac_ok_of (html : Html) (rb det : Node)
    (h1 : soup_find "ul" (some "rank-box") html = some rb)
    (h2 : soup_find "div" (some "seiza-area") html = some det)
    (hr : ranking_rows rb ≠ []) (hd : detail_rows det ≠ []) :
    parse_zodiac html = .ok (merge_rows (ranking_rows rb) (detail_rows det)) := by
  unfold parse_zodiac
  rw [h1, h2]
  have hr' : (ranking_rows rb).isEmpty = false := by
    cases hv : ranking_rows rb with
    | nil => exact absurd hv hr
    | cons a l => rfl
  have hd' : (detail_rows det).isEmpty = false := by
    cases hv : detail_rows det with
    | nil => exact absurd hv hd
    | cons a l => rfl
  simp [hr', hd']

theorem parse_zodiac_rows (html : Html) (rb det : Node) (rows : List MergedRow)
    (h1 : soup_find "ul" (some "rank-box") html = some rb)
    (h2 : soup_find "div" (some "seiza-area") html = some det)
    (hok : parse_zodiac html = .ok rows) :
    rows = merge_rows (ranking_rows rb) (detail_rows det) := by
  unfold parse_zodiac at hok
  rw [h1, h2] at hok
  simp at hok
  by_cases hr : ranking_rows rb = []
  · rw [if_pos hr] at hok
    exact absurd hok (by simp)
  · rw [if_neg hr] at hok
    by_cases hd : detail_rows det = []
    · rw [if_pos hd] at hok
      exact absurd hok (by simp)
    · rw [if_neg hd] at hok
      exact (Except.ok.inj hok).symm

theorem merge_rows_cons (r : RankingRow) (rs : List RankingRow) (drows : List DetailRow) :
    merge_rows (r :: rs) drows = merge_block drows r ++ merge_rows rs drows := by
  simp [merge_rows]

theorem merge_block_length_le (drows : List DetailRow) (r : RankingRow)
    (h : (drows.filter (fun d => d.«별자리» == r.«별자리_한국어»)).length ≤ 1) :
    (merge_block drows r).length ≤ 1 := by
  unfold merge_block
  cases hf : drows.filter (fun d => d.«별자리» == r.«별자리_한국어») with
  | nil => simp
  | cons d ds =>
    rw [hf] at h
    simpa using h

theorem merge_rows_length_le (rrows : List RankingRow) (drows : List DetailRow)
    (h : ∀ r ∈ rrows, (drows.filter (fun d => d.«별자리» == r.«별자리_한국어»)).length ≤ 1) :
    (merge_rows rrows drows).length ≤ rrows.length := by
  induction rrows with
  | nil => simp [merge_rows]
  | cons r rs ih =>
    rw [merge_rows_cons, List.length_append]
    have h1 := merge_block_length_le drows r (h r (List.mem_cons_self r rs))
    have h2 := ih (fun x hx => h x (List.mem_cons_of_mem _ hx))
    simp only [List.length_cons]
    omega

theorem merge_rows_unique (rrows : List RankingRow) (drows : List DetailRow)
    (h : ∀ r ∈ rrows, (drows.filter (fun d => d.«별자리» == r.«별자리_한국어»)).length = 1) :
    (merge_rows rrows drows).length = rrows.length ∧
    (merge_rows rrows drows).map (fun row => row.«순위») = rrows.map (fun r => r.«순위») ∧
    ∀ row ∈ merge_rows rrows drows, ∃ r d, row = matched_row r d := by
  induction rrows with
  | nil => simp [merge_rows]
  | cons r rs ih =>
    obtain ⟨hl, hm, hmem⟩ := ih (fun x hx => h x (List.mem_cons_of_mem _ hx))
    have hr := h r (List.mem_cons_self r rs)
    obtain ⟨d, hd⟩ : ∃ d, drows.filter (fun x => x.«별자리» == r.«별자리_한국어») = [d] := by
      cases hf : drows.filter (fun x => x.«별자리» == r.«별자리_한국어») with
      | nil => rw [hf] at hr; simp at hr
      | cons d ds =>
        rw [hf] at hr
        simp at hr
        exact ⟨d, by rw [hr]⟩
    have hblock : merge_block drows r = [matched_row r d] := by
      unfold merge_block
      rw [hd]
      rfl
    refine ⟨?_, ?_, ?_⟩
    · rw [merge_rows_cons, List.length_append, hblock, hl]
      simp [Nat.add_comm]
    · rw [merge_rows_cons, List.map_append, hblock, hm]
      rfl
    · intro row hrow
      rw [merge_rows_cons, hblock] at hrow
      rcases List.mem_append.mp hrow with h' | h'
      · exact ⟨r, d, by simpa using h'⟩
      · exact hmem row h'

theorem merge_rows_unmatched_mem (rrows : List RankingRow) (drows : List DetailRow)
    (r : RankingRow) (hr : r ∈ rrows)
    (hf : drows.filter (fun d => d.«별자리» == r.«별자리_한국어») = []) :
    unmatched_row r ∈ merge_rows rrows drows := by
  induction rrows with
  | nil => cases hr
  | cons x rs ih =>
    rw [merge_rows_cons]
    rcases List.mem_cons.mp hr with h | h
    · subst h
      apply List.mem_append_left
      unfold merge_block
      rw [hf]
      exact List.mem_cons_self _ _
    · exact List.mem_append_right _ (ih h)

theorem str_repeat_star (k : Nat) : str_repeat "★" k = String.mk (List.replicate k '★') := by
  induction k with
  | zero => rfl
  | succ k ih =>
    show "★" ++ str_repeat "★" k = _
    rw [ih]
    rfl

theorem parse_succeeds_ok (html : Html) (h : parse_succeeds html = true) :
    ∃ rows, parse_zodiac html = .ok rows := by
  unfold parse_succeeds at h
  cases hp : parse_zodiac html with
  | ok rows => exact ⟨rows, rfl⟩
  | error e => rw [hp] at h; simp at h

theorem parse_zodiac_ok_containers (html : Html) (rows : List MergedRow)
    (hok : parse_zodiac html = .ok rows) :
    ∃ rb det, soup_find "ul" (some "rank-box") html = some rb ∧
      soup_find "div" (some "seiza-area") html = some det := by
  cases h1 : soup_find "ul" (some "rank-box") html with
  | none =>
    exfalso
    unfold parse_zodiac at hok
    rw [h1] at hok
    cases h2 : soup_find "div" (some "seiza-area") html <;> rw [h2] at hok <;> simp at hok
  | some rb =>
    cases h2 : soup_find "div" (some "seiza-area") html with
    | none =>
      exfalso
      unfold parse_zodiac at hok
      rw [h1, h2] at hok
      simp at hok
    | some det => exact ⟨rb, det, rfl, rfl⟩

theorem parse_zodiac_ok_nonempty (html : Html) (rb det : Node) (rows : List MergedRow)
    (h1 : soup_find "ul" (some "rank-box") html = some rb)
    (h2 : soup_find "div" (some "seiza-area") html = some det)
    (hok : parse_zodiac html = .ok rows) :
    ranking_rows rb ≠ [] ∧ detail_rows det ≠ [] := by
  unfold parse_zodiac at hok
  rw [h1, h2] at hok
  simp at hok
  by_cases hr : ranking_rows rb = []
  · rw [if_pos hr] at hok
    exact absurd hok (by simp)
  · by_cases hd : detail_rows det = []
    · rw [if_neg hr, if_pos hd] at hok
      exact absurd hok (by simp)
    · exact ⟨hr, hd⟩

/-- C1: on the end-to-end fixture — a ranking list of the 12 sign labels
starting with "おうし座" and a detail block `id="ousi"` whose narrative is
"test message", with two icon images in the money category's lucky display box
and zero in the love, work and health boxes — the extractor's output contains
(as its first row) the row with rank 1, sign "황소자리", link `BASE_URL ++
"#ousi"`, narrative "test message" and scores 2, 0, 0, 0. -/
theorem C1_end_to_end_row :
    (parse_zodiac c1_html).map (fun rows => rows.head?.map (fun row =>
        (row.«순위», row.«별자리», row.«링크», row.«운세»,
         row.«금전», row.«애정», row.«업무», row.«건강»)))
      = Except.ok (some (1, some "황소자리", some (BASE_URL ++ "#ousi"), some "test message",
          some 2, some 0, some 0, some 0)) := rfl

/-- C2: with a `<br/>` element standing between the label span and the value
text node, `_text_after_label` does not skip the line-break marker and return
the stripped value "赤"; it returns the string "None" — the stringification of
the Python `None` that `Tag.string` yields for the empty `<br/>` element — even
though the code's own `s != "<br/>"` test and docstring intend such separator
siblings to be skipped. -/
theorem C2_br_sibling_returns_None :
    _text_after_label c2_parent "lucky-color-txt" = "None" ∧
    py_strip (node_str (Node.text " 赤 ")) = "赤" :=
  ⟨rfl, rfl⟩

/-- C3: for markup whose ranking container holds exactly 12 list items and
whose detail container holds exactly 12 sub-blocks, such that every ranking
row's resolved name matches exactly one detail row, the output has exactly 12
rows, rank values 1 through 12 in order, and no row has null detail fields. -/
theorem C3_full_match_output (html : Html) (rb det : Node)
    (h1 : soup_find "ul" (some "rank-box") html = some rb)
    (h2 : soup_find "div" (some "seiza-area") html = some det)
    (h12r : (find_all "li" none rb).length = 12)
    (h12d : (find_all "div" (some "seiza-box") det).length = 12)
    (hmatch : ∀ r ∈ ranking_rows rb,
      ((detail_rows det).filter (fun d => d.«별자리» == r.«별자리_한국어»)).length = 1) :
    ∃ rows, parse_zodiac html = Except.ok rows ∧ rows.length = 12 ∧
      rows.map (fun row => row.«순위») = List.range' 1 12 ∧
      ∀ row ∈ rows, row.«링크» ≠ none ∧ row.«운세» ≠ none ∧ row.«행운의 색» ≠ none ∧
        row.«행운의 물건» ≠ none ∧ row.«금전» ≠ none ∧ row.«애정» ≠ none ∧
        row.«업무» ≠ none ∧ row.«건강» ≠ none := by
  have htake : (find_all "li" none rb).take 12 = find_all "li" none rb :=
    List.take_of_length_le (le_of_eq h12r)
  have hrlen : (ranking_rows rb).length = 12 := by
    unfold ranking_rows
    rw [ranking_rows_from_length, htake, h12r]
  have hdlen : (detail_rows det).length = 12 := by
    unfold detail_rows
    rw [List.length_map, List.length_take, h12d]
    exact min_self 12
  have hrne : ranking_rows rb ≠ [] := by
    intro hv
    rw [hv] at hrlen
    simp at hrlen
  have hdne : detail_rows det ≠ [] := by
    intro hv
    rw [hv] at hdlen
    simp at hdlen
  have hok := parse_zodiac_ok_of html rb det h1 h2 hrne hdne
  obtain ⟨hl, hm, hmem⟩ := merge_rows_unique (ranking_rows rb) (detail_rows det) hmatch
  refine ⟨_, hok, ?_, ?_, ?_⟩
  · rw [hl, hrlen]
  · rw [hm]
    unfold ranking_rows
    rw [ranking_rows_from_ranks, htake, h12r]
  · intro row hrow
    obtain ⟨r, d, hrd⟩ := hmem row hrow
    subst hrd
    simp [matched_row]

/-- C3 witness: the 12-versus-12 fully matching fixture yields 12 rows. -/
theorem C3_full_match_witness : (parse_zodiac c3_html).map List.length = Except.ok 12 := by
  obtain ⟨rows, hok, hlen, -, -⟩ :=
    C3_full_match_output c3_html c3_rank_box c3_seiza_area rfl rfl rfl rfl (by decide)
  rw [hok]
  simp [Except.map, hlen]

/-- C4 (amended): the extractor returns normally iff both mandatory containers
are present and each is non-empty (holds at least one ranking item / detail
sub-block); a present-but-empty container makes the merge step's column lookup
fail, while deeper missing elements inside an item never cause an error. -/
theorem C4_error_condition (html : Html) :
    parse_succeeds html = true ↔
      ∃ rb det, soup_find "ul" (some "rank-box") html = some rb ∧
        soup_find "div" (some "seiza-area") html = some det ∧
        ranking_rows rb ≠ [] ∧ detail_rows det ≠ [] := by
  constructor
  · intro h
    obtain ⟨rows, hok⟩ := parse_succeeds_ok html h
    obtain ⟨rb, det, h1, h2⟩ := parse_zodiac_ok_containers html rows hok
    obtain ⟨hr, hd⟩ := parse_zodiac_ok_nonempty html rb det rows h1 h2 hok
    exact ⟨rb, det, h1, h2, hr, hd⟩
  · rintro ⟨rb, det, h1, h2, hr, hd⟩
    unfold parse_succeeds
    rw [parse_zodiac_ok_of html rb det h1 h2 hr hd]

/-- C4 counterexample: on a page where both containers are present but the
ranking container holds no list items, the extractor raises (a `KeyError`, not
the structural `ValueError`), refuting "errors only when a container is
absent". -/
theorem C4_empty_container_error :
    (soup_find "ul" (some "rank-box") c4_html).isSome = true ∧
    (soup_find "div" (some "seiza-area") c4_html).isSome = true ∧
    parse_succeeds c4_html = false := by
  refine ⟨rfl, rfl, rfl⟩

/-- C4 witness: on the end-to-end fixture both containers are present and
non-empty, and the extractor indeed returns normally. -/
theorem C4_success_witness : parse_succeeds c1_html = true :=
  (C4_error_condition c1_html).mpr
    ⟨c1_rank_box, c1_seiza_area, rfl, rfl, by decide, by decide⟩

/-- C5 (amended): each pass retains at most the first 12 entries of its
container (silently truncating extras), and the returned record sequence has
length at most 12 provided every ranking entry's resolved name matches at most
one retained detail entry (duplicate detail keys can push the pandas merge
beyond 12 rows). -/
theorem C5_truncation_and_bound (html : Html) (rb det : Node) (rows : List MergedRow)
    (h1 : soup_find "ul" (some "rank-box") html = some rb)
    (h2 : soup_find "div" (some "seiza-area") html = some det)
    (hok : parse_zodiac html = .ok rows)
    (huniq : ∀ r ∈ ranking_rows rb,
      ((detail_rows det).filter (fun d => d.«별자리» == r.«별자리_한국어»)).length ≤ 1) :
    (ranking_rows rb).length ≤ 12 ∧ (detail_rows det).length ≤ 12 ∧ rows.length ≤ 12 := by
  refine ⟨ranking_rows_length_le rb, detail_rows_length_le det, ?_⟩
  rw [parse_zodiac_rows html rb det rows h1 h2 hok]
  exact le_trans (merge_rows_length_le _ _ huniq) (ranking_rows_length_le rb)

/-- C5 witness: on the end-to-end fixture both passes stay within the 12-cap
and the output has at most 12 rows. -/
theorem C5_truncation_witness :
    (ranking_rows c1_rank_box).length ≤ 12 ∧ (detail_rows c1_seiza_area).length ≤ 12 ∧
    (rows_of c1_html).length ≤ 12 :=
  C5_truncation_and_bound c1_html c1_rank_box c1_seiza_area (rows_of c1_html) rfl rfl rfl
    (by decide)

/-- C5 counterexample: with two identically labelled ranking items and seven
identically keyed detail blocks the extractor returns 14 rows, refuting the
unconditional "length at most 12". -/
theorem C5_length_counterexample :
    (parse_zodiac c5_html).map List.length = Except.ok 14 ∧ ¬(14 ≤ 12) :=
  ⟨rfl, by decide⟩

/-- C6 (amended): a ranking entry whose label fails to resolve still yields an
output row (left-join semantics) carrying its rank; but the row's sign-name
field is null — the source-language name is dropped by the merge's column
selection — and, as long as every detail block's id resolves, all its detail
fields are null (pandas `NaN`), not empty strings or zeros. -/
theorem C6_unresolved_label_row (html : Html) (rb det : Node) (rows : List MergedRow)
    (r : RankingRow)
    (h1 : soup_find "ul" (some "rank-box") html = some rb)
    (h2 : soup_find "div" (some "seiza-area") html = some det)
    (hok : parse_zodiac html = .ok rows)
    (hr : r ∈ ranking_rows rb) (hnone : r.«별자리_한국어» = none)
    (hres : ∀ d ∈ detail_rows det, d.«별자리» ≠ none) :
    unmatched_row r ∈ rows ∧ (unmatched_row r).«순위» = r.«순위» ∧
      (unmatched_row r).«별자리» = none ∧ (unmatched_row r).«링크» = none ∧
      (unmatched_row r).«운세» = none ∧ (unmatched_row r).«행운의 색» = none ∧
      (unmatched_row r).«행운의 물건» = none ∧ (unmatched_row r).«금전» = none ∧
      (unmatched_row r).«애정» = none ∧ (unmatched_row r).«업무» = none ∧
      (unmatched_row r).«건강» = none := by
  have hf : (detail_rows det).filter (fun d => d.«별자리» == r.«별자리_한국어») = [] := by
    rw [List.filter_eq_nil_iff]
    intro d hd
    rw [hnone]
    simpa using hres d hd
  refine ⟨?_, rfl, by simp [unmatched_row, hnone], rfl, rfl, rfl, rfl, rfl, rfl, rfl, rfl⟩
  rw [parse_zodiac_rows html rb det rows h1 h2 hok]
  exact merge_rows_unmatched_mem _ _ r hr hf

/-- C6 witness: the unresolved-label fixture's ranking row appears in the
output as an unmatched (all-null) row. -/
theorem C6_unresolved_witness : unmatched_row c6_rank_row ∈ rows_of c6_html :=
  (C6_unresolved_label_row c6_html c6_rank_box c6_seiza_area (rows_of c6_html) c6_rank_row
    rfl rfl rfl (by decide) rfl (by decide)).1

/-- C6 counterexample: on the unresolved-label fixture the single output row
has a null sign name (the source label "ABC座" appears nowhere in the output)
and null — not empty/zero — detail fields. -/
theorem C6_null_fields_counterexample :
    parse_zodiac c6_html = Except.ok [c6_row] ∧ c6_row.«별자리» = none ∧
      c6_row.«운세» ≠ some "" ∧ c6_row.«금전» ≠ some 0 :=
  ⟨rfl, rfl, by decide, by decide⟩

/-- C7: whenever the translation collaborator raises, `translate_text` catches
the error and returns the original text unchanged — a translation failure is
never propagated. -/
theorem C7_translation_failure_passthrough (tr : String → Except String String)
    (text e : String) (h : tr text = .error e) : translate_text tr text = text := by
  unfold translate_text
  by_cases ht : text = ""
  · rw [if_pos ht]
  · rw [if_neg ht, h]

/-- C7 witness: a concrete always-failing collaborator leaves the text as is. -/
theorem C7_translation_witness :
    translate_text (fun _ => Except.error "HTTPError") "今日はとても良い日" = "今日はとても良い日" :=
  C7_translation_failure_passthrough (fun _ => Except.error "HTTPError")
    "今日はとても良い日" "HTTPError" rfl

/-- C8 (amended): a detail record's link is synthesized exclusively from the
sub-block's id attribute — `BASE_URL ++ "#" ++ signId` when the id is present
and non-empty, `""` when it is absent or empty (Python truthiness) — and never
depends on the block's contents, hence never on any anchor element. -/
theorem C8_link_synthesized (box : Node) :
    (detail_row box).«링크» =
      (match box.idAttr with
        | some z => if z ≠ "" then BASE_URL ++ "#" ++ z else ""
        | none => "") ∧
    ∀ (tag : String) (cls : List String) (i : Option String) (cs cs2 : List Node),
      (detail_row (Node.elem tag cls i cs)).«링크» =
        (detail_row (Node.elem tag cls i cs2)).«링크» := by
  constructor
  · rfl
  · intro tag cls i cs cs2
    rfl

/-- C8 counterexample: on a sub-block whose id attribute is present but empty
the link is the empty string, not `BASE_URL ++ "#" ++ ""` as the claim's first
clause demands. -/
theorem C8_empty_id_counterexample :
    c8_box.idAttr = some "" ∧ (detail_row c8_box).«링크» = "" ∧
      BASE_URL ++ "#" ++ "" ≠ "" :=
  ⟨rfl, rfl, by decide⟩

/-- C9: `stars` maps 3 to "★★★" — in general a positive `n` to `n` star
characters — and 0, any negative number, and any non-numeric input (whose
`int(...)` conversion fails and is replaced by 0) to "-". -/
theorem C9_stars_formatting :
    stars (some 3) = "★★★" ∧
    (∀ n : Int, 0 < n → stars (some n) = String.mk (List.replicate n.toNat '★')) ∧
    (∀ n : Int, n ≤ 0 → stars (some n) = "-") ∧
    stars none = "-" := by
  refine ⟨rfl, ?_, ?_, rfl⟩
  · intro n hn
    unfold stars
    simp only [Option.getD_some]
    rw [if_pos hn]
    exact str_repeat_star n.toNat
  · intro n hn
    unfold stars
    simp only [Option.getD_some]
    rw [if_neg (by omega)]

/-- C9 witness: the general clauses applied at 2 and -3. -/
theorem C9_stars_witness :
    stars (some 2) = String.mk (List.replicate (2 : Int).toNat '★') ∧ stars (some (-3)) = "-" :=
  ⟨C9_stars_formatting.2.1 2 (by decide), C9_stars_formatting.2.2.1 (-3) (by decide)⟩

/-- C10: the sign-name dictionary `zodiak_kr_jp` and its comprehension-built
reversal `jp_to_kr` are mutually inverse bijections on the closed 12-sign
domain: both have 12 entries, all keys and all values are distinct, and
looking a pair's value up in the other dictionary returns its key. -/
theorem C10_dictionaries_inverse :
    zodiak_kr_jp.length = 12 ∧ jp_to_kr.length = 12 ∧
    (zodiak_kr_jp.map Prod.fst).Nodup ∧ (zodiak_kr_jp.map Prod.snd).Nodup ∧
    (jp_to_kr.map Prod.fst).Nodup ∧ (jp_to_kr.map Prod.snd).Nodup ∧
    (zodiak_kr_jp.all (fun p => dict_get jp_to_kr (some p.2) == some p.1)) = true ∧
    (jp_to_kr.all (fun p => dict_get zodiak_kr_jp (some p.2) == some p.1)) = true := by
  decide
